import Mathlib

/-!
Verification of the comment authenticity analyzer (`comment_checker.py`).

The data model and operations below are a shallow embedding of the Python
source.  Strings are Lean `String`s (lists of unicode code points, matching
Python's code-point semantics for `len`, indexing and iteration); machine
integers are `Int`; the external language detector is passed in as a
function parameter `detect : String → String` (the source wraps it so that
any failure yields "unknown").
-/

/-- Python whitespace characters stripped by `str.strip()` (ASCII range). -/
def pyWhitespaceChar (c : Char) : Bool :=
  c == ' ' || c == '\t' || c == '\n' || c == '\x0d' || c == '\x0b' || c == '\x0c'

/-- Embedding of Python `str.strip()`. -/
def pyStrip (s : String) : String :=
  ⟨((s.data.dropWhile pyWhitespaceChar).reverse.dropWhile pyWhitespaceChar).reverse⟩

/-- ASCII lower-casing of one character (Python `str.lower()` on ASCII input). -/
def lowerChar (c : Char) : Char :=
  if 'A' ≤ c ∧ c ≤ 'Z' then Char.ofNat (c.toNat + 32) else c

/-- Embedding of Python `str.lower()` (ASCII range). -/
def pyLower (s : String) : String := ⟨s.data.map lowerChar⟩

/-- Does the character list start with the given pattern? -/
def listStarts : List Char → List Char → Bool
  | [], _ => true
  | _ :: _, [] => false
  | p :: ps, c :: cs => p == c && listStarts ps cs

/-- Substring test: `pat` occurs somewhere in `s` (Python `pat in s`,
also `re.search` on a literal pattern). -/
def hasSub (pat s : String) : Bool :=
  s.data.tails.any (listStarts pat.data)

/-- Rule 1 condition, `re.search(r'https?://|www\.', text)` (line 236). -/
def hasUrl (text : String) : Bool :=
  hasSub "http://" text || hasSub "https://" text || hasSub "www." text

/-- Regex word character (`\w`): alphanumeric or underscore. -/
def wordChar (c : Char) : Bool := c.isAlphanum || c == '_'

/-- Rule 2 condition, `re.search(r'\b\d{7,}\b', text)` (line 239): a run of at
least 7 digit characters delimited by word boundaries, i.e. some segment
`[i, j)` of ≥ 7 digits whose neighbouring characters (when they exist) are
not word characters. -/
def hasBoundedDigitRun (text : String) : Bool :=
  let l := text.data
  let n := l.length
  (List.range (n + 1)).any fun i =>
    (List.range (n + 1)).any fun j =>
      decide (i + 7 ≤ j) && decide (j ≤ n) &&
      ((l.drop i).take (j - i)).all Char.isDigit &&
      (decide (i = 0) || !wordChar (l.getD (i - 1) ' ')) &&
      (decide (j = n) || !wordChar (l.getD j ' '))

/-- One of `!`, `?`, `.`. -/
def punctChar (c : Char) : Bool := c == '!' || c == '?' || c == '.'

/-- First half of rule 3, `re.search(r'([!?.]){3,}', text)` (line 242):
three consecutive characters drawn from `!?.`. -/
def hasPunctRun (text : String) : Bool :=
  text.data.tails.any fun t =>
    match t with
    | a :: b :: c :: _ => punctChar a && punctChar b && punctChar c
    | _ => false

/-- Second half of rule 3, `re.search(r'(.)\1{6,}', text)` (line 242): some
non-newline character repeated at least 7 times consecutively. -/
def hasRepeatRun (text : String) : Bool :=
  text.data.tails.any fun t =>
    match t with
    | a :: b :: c :: d :: e :: f :: g :: _ =>
      a != '\n' && b == a && c == a && d == a && e == a && f == a && g == a
    | _ => false

/-- Character in one of the emoji ranges of line 245
(`[\U0001F300-\U0001F6FF\U0001F900-\U0001F9FF☀-➿]`). -/
def isEmojiChar (c : Char) : Bool :=
  (decide (0x1F300 ≤ c.toNat) && decide (c.toNat ≤ 0x1F6FF)) ||
  (decide (0x1F900 ≤ c.toNat) && decide (c.toNat ≤ 0x1F9FF)) ||
  (decide (0x2600 ≤ c.toNat) && decide (c.toNat ≤ 0x27BF))

/-- Number of emoji-range characters in the text (line 245). -/
def emojiCount (text : String) : Nat := text.data.countP isEmojiChar

/-- Second half of rule 5 (line 249): lower-cased text is one of the fixed
generic praise tokens. -/
def genericPraise (text : String) : Bool :=
  let t := pyLower text
  t == "nice" || t == "good" || t == "great" || t == "👍" || t == "🔥"

/-- Rule 6 condition (line 252), case-insensitive search for one of the fixed
self-promotion phrases. -/
def hasPromoPhrase (text : String) : Bool :=
  let t := pyLower text
  hasSub "follow me" t || hasSub "check my profile" t || hasSub "subscribe" t ||
  hasSub "dm for" t || hasSub "contact me" t || hasSub "visit my" t

/-- Number of digit characters in the author name (line 261). -/
def digitCount (s : String) : Nat := s.data.countP Char.isDigit

/-- Embedding of `re.search(r'user\d{2,}', author, flags=re.I)` (line 262): "user"
followed by at least two digits, case-insensitively. -/
def hasUserDigits (author : String) : Bool :=
  (pyLower author).data.tails.any fun t =>
    match t with
    | 'u' :: 's' :: 'e' :: 'r' :: a :: b :: _ => a.isDigit && b.isDigit
    | _ => false

/-- Python `str.isalpha()` (ASCII range): non-empty and purely alphabetic. -/
def pyIsAlpha (s : String) : Bool := !s.data.isEmpty && s.data.all Char.isAlpha

/-- Rule 10 condition, `re.search(r'(bot|spam|free|promo)', author, flags=re.I)`
(line 268). -/
def hasBotKeyword (author : String) : Bool :=
  let t := pyLower author
  hasSub "bot" t || hasSub "spam" t || hasSub "free" t || hasSub "promo" t

/-- Canonical comment record (the dict handed to `analyze_comment`; the spec's
invariant is that all five fields are present). -/
structure Comment where
  author : String
  text : String
  publishedAt : String
  likeCount : Int
  platform : String
deriving DecidableEq, Repr

/-- Output record of `analyze_comment` (lines 290-300). -/
structure AnalysisResult where
  author : String
  text : String
  platform : String
  publishedAt : String
  likeCount : Int
  score : Int
  verdict : String
  reasons : List String
  language : String
deriving DecidableEq, Repr

/-- Score adjustment of each of the 13 scoring-relevant branches of
`analyze_comment`, in source order: rules 1-6 on the text, the
`likeCount == 0` / `likeCount >= 25` alternatives, rules 8-10 on the author,
the unknown-language branch (reason only, adjustment 0), and rule 12. -/
def ruleDelta : Fin 13 → Int
  | 0 => -35
  | 1 => -10
  | 2 => -8
  | 3 => -6
  | 4 => -12
  | 5 => -30
  | 6 => -4
  | 7 => 10
  | 8 => -10
  | 9 => -6
  | 10 => -20
  | 11 => 0
  | 12 => -6

/-- Reason strings appended by each branch (the `likeCount == 0` branch at
line 255 appends none). -/
def ruleReasons : Fin 13 → List String
  | 0 => ["Contains a URL or web link (common in spam)."]
  | 1 => ["Contains a long numeric sequence (could be phone/ID)."]
  | 2 => ["Excessive punctuation or repeated characters."]
  | 3 => ["High emoji density (can indicate low-effort engagement)."]
  | 4 => ["Very short or generic praise; often low-effort or bot-like."]
  | 5 => ["Self-promotional call-to-action (common spam)."]
  | 6 => []
  | 7 => ["High likes — social traction suggests authenticity."]
  | 8 => ["Author name contains many digits / generic pattern (possible bot)."]
  | 9 => ["Suspiciously short username (could be fake)."]
  | 10 => ["Username contains bot/promo keywords."]
  | 11 => ["Language could not be reliably detected."]
  | 12 => ["Short comment in an unexpected language for this post (weak signal)."]

/-- Trigger condition of each branch of `analyze_comment` (lines 236-278), on
the stripped text/author, like count, platform (defaulted to "unknown" when
empty, line 230) and detected language (line 271: the detector runs only on
non-empty text). -/
def fires (detect : String → String) (c : Comment) : Fin 13 → Bool := fun i =>
  let text := pyStrip c.text
  let author := pyStrip c.author
  let like := c.likeCount
  let platform := if c.platform = "" then "unknown" else c.platform
  let lang := if text ≠ "" then detect text else "unknown"
  match i with
  | 0 => hasUrl text
  | 1 => hasBoundedDigitRun text
  | 2 => hasPunctRun text || hasRepeatRun text
  | 3 => decide (4 ≤ emojiCount text)
  | 4 => decide (text.length ≤ 4) || genericPraise text
  | 5 => hasPromoPhrase text
  | 6 => like == 0
  | 7 => like != 0 && decide (25 ≤ like)
  | 8 => author != "" && (decide (3 ≤ digitCount author) || hasUserDigits author)
  | 9 => author != "" && decide (author.length ≤ 2) && pyIsAlpha author
  | 10 => author != "" && hasBotKeyword author
  | 11 => lang == "unknown"
  | 12 => lang != "unknown" &&
          (platform == "facebook" || platform == "instagram") &&
          !(lang == "en" || lang == "unknown") &&
          decide (text.length < 20)

/-- Running score after all rules: the starting score 60 (line 232) plus the
adjustment of every branch that fired (each `score -= ...` / `score += ...`
of lines 236-278; the adjustments commute, so the sequential updates amount
to this sum). -/
def scoreChain (b : Fin 13 → Bool) : Int :=
  60 + ∑ j : Fin 13, (if b j then ruleDelta j else 0)

/-- Reasons accumulated in branch order (each `reasons.append(...)`). -/
def reasonsChain (b : Fin 13 → Bool) : List String :=
  ((List.finRange 13).map fun j => if b j then ruleReasons j else []).flatten

/-- Verdict thresholds of lines 281-288. -/
def verdictOf (score : Int) : String :=
  if 60 ≤ score then "real"
  else if 40 ≤ score then "likely-real"
  else if 20 ≤ score then "likely-fake"
  else "fake"

/-- Embedding of `analyze_comment` (lines 225-300).  `detect` stands for
`detect_language`, which already maps detector failures to "unknown". -/
def analyze_comment (detect : String → String) (comment : Comment) : AnalysisResult :=
  let text := pyStrip comment.text
  let author := pyStrip comment.author
  let like := comment.likeCount
  let platform := if comment.platform = "" then "unknown" else comment.platform
  let lang := if text ≠ "" then detect text else "unknown"
  let b := fires detect comment
  let score := max 0 (min 100 (scoreChain b))
  { author := if author = "" then "Unknown" else author
    text := text
    platform := platform
    publishedAt := comment.publishedAt
    likeCount := like
    score := score
    verdict := verdictOf score
    reasons := reasonsChain b
    language := lang }

/-- Python `str.isdigit()` (ASCII range): non-empty and purely digits. -/
def pyIsdigit (s : String) : Bool := !s.data.isEmpty && s.data.all Char.isDigit

/-- Numeric value of a list of digit characters. -/
def digitsVal (l : List Char) : Nat := l.foldl (fun n c => 10 * n + (c.toNat - 48)) 0

/-- Embedding of Python `int(s)` on strings: strips whitespace, accepts an
optional sign followed by at least one digit, and is `none` when `int`
would raise `ValueError`. -/
def pyInt? (s : String) : Option Int :=
  match (pyStrip s).data with
  | '-' :: rest =>
      if !rest.isEmpty && rest.all Char.isDigit then some (-(digitsVal rest : Int)) else none
  | '+' :: rest =>
      if !rest.isEmpty && rest.all Char.isDigit then some ((digitsVal rest : Int)) else none
  | l => if !l.isEmpty && l.all Char.isDigit then some ((digitsVal l : Int)) else none

/-- Python `row.get(k)` on a CSV dict row, modelled as an association list. -/
def dictGet (row : List (String × String)) (k : String) : Option String :=
  (row.find? fun p => p.1 == k).map Prod.snd

/-- Python's `a or b or ...` chain over `row.get` results: the first value that
is neither absent (`None`) nor the empty string. -/
def firstTruthy : List (Option String) → Option String
  | [] => none
  | none :: rest => firstTruthy rest
  | some "" :: rest => firstTruthy rest
  | some s :: _ => some s

/-- The comment dict built for a headered CSV row (lines 204-210), given the
already-converted like count. -/
def mkHeaderedComment (row : List (String × String)) (n : Int) : Comment :=
  { author := (firstTruthy [dictGet row "author", dictGet row "user", dictGet row "username"]).getD "Unknown"
    text := (firstTruthy [dictGet row "text", dictGet row "comment"]).getD ""
    publishedAt := (firstTruthy [dictGet row "publishedAt", dictGet row "time"]).getD ""
    likeCount := n
    platform := (firstTruthy [dictGet row "platform"]).getD "unknown" }

/-- Normalization of one headered CSV row (lines 203-210).  The like count is
`int(row.get('likeCount') or row.get('likes') or 0)`: when both lookups are
falsy the literal `0` is converted, otherwise `int` runs on the string and
raises (`none`) on non-numeric input. -/
def parseHeaderedRow (row : List (String × String)) : Option Comment :=
  match firstTruthy [dictGet row "likeCount", dictGet row "likes"] with
  | none => some (mkHeaderedComment row 0)
  | some s =>
    match pyInt? s with
    | none => none
    | some n => some (mkHeaderedComment row n)

/-- The headered-CSV loop: rows are normalized in order; an exception from
`int` aborts the loop and the rows collected so far are returned (the
`try`/`except` of lines 186-214). -/
def readHeaderedRows : List (List (String × String)) → List Comment
  | [] => []
  | r :: rs =>
    match parseHeaderedRow r with
    | none => []
    | some c => c :: readHeaderedRows rs

/-- Splitting a character list on commas: Python `s.split(',')` (the empty
string splits to one empty field). -/
def splitCharList : List Char → List (List Char)
  | [] => [[]]
  | c :: rest =>
    let r := splitCharList rest
    if c == ',' then [] :: r
    else
      match r with
      | [] => [[c]]
      | h :: t => (c :: h) :: t

/-- Python `s.split(',')` on strings. -/
def pySplitComma (s : String) : List String := (splitCharList s.data).map fun l => ⟨l⟩

/-- Normalization of one headerless CSV line (lines 190-201): the stripped
line is split on commas positionally; lines with fewer than 2 fields are
dropped; the like count is `int(parts[3])` only when `parts[3].isdigit()`,
otherwise 0. -/
def parseHeaderlessLine (ln : String) : Option Comment :=
  let parts := pySplitComma (pyStrip ln)
  if parts.length < 2 then none
  else some
    { author := pyStrip (parts.getD 0 "")
      text := pyStrip (parts.getD 1 "")
      publishedAt := if 2 < parts.length then pyStrip (parts.getD 2 "") else ""
      likeCount :=
        if 3 < parts.length ∧ pyIsdigit (parts.getD 3 "") then ((digitsVal (parts.getD 3 "").data : Nat) : Int) else 0
      platform := if 4 < parts.length then pyStrip (parts.getD 4 "") else "unknown" }

/-- The headerless-CSV loop (`continue` drops short lines). -/
def readHeaderlessLines (lns : List String) : List Comment :=
  lns.filterMap parseHeaderlessLine

/-- Comparison used by the presentation sort (line 512):
`sorted(analysis, key=lambda x: x['score'])`. -/
def scoreLE (a b : AnalysisResult) : Bool := decide (a.score ≤ b.score)

/-- The presentation view of line 512: Python's `sorted` is a stable ascending
sort by the key, modelled with the (stable) `List.mergeSort`. -/
def sortResults (l : List AnalysisResult) : List AnalysisResult :=
  l.mergeSort scoreLE

/-- Toggling exactly one trigger flag changes the accumulated (pre-clamp)
score by exactly that rule's delta. -/
theorem scoreChain_toggle (b1 b2 : Fin 13 → Bool) (i : Fin 13)
    (hagree : ∀ j : Fin 13, j ≠ i → b1 j = b2 j)
    (h1 : b1 i = true) (h2 : b2 i = false) :
    scoreChain b1 - scoreChain b2 = ruleDelta i := by
  unfold scoreChain
  have key : ∀ j : Fin 13,
      (if b1 j then ruleDelta j else 0) - (if b2 j then ruleDelta j else 0)
        = if j = i then ruleDelta i else 0 := by
    intro j
    by_cases hj : j = i
    · subst hj; rw [h1, h2]; simp
    · rw [hagree j hj]; simp [hj]
  have e1 : (60 + ∑ j : Fin 13, (if b1 j then ruleDelta j else 0))
      - (60 + ∑ j : Fin 13, (if b2 j then ruleDelta j else 0))
      = ∑ j : Fin 13, ((if b1 j then ruleDelta j else 0) - (if b2 j then ruleDelta j else 0)) := by
    rw [Finset.sum_sub_distrib]; ring
  rw [e1, Finset.sum_congr rfl (fun j _ => key j), Finset.sum_ite_eq' Finset.univ i fun j => ruleDelta i]
  simp

/-- The only positive adjustment is the +10 of the high-likes branch, so the
accumulated score never exceeds 70. -/
theorem scoreChain_le_70 (b : Fin 13 → Bool) : scoreChain b ≤ 70 := by
  unfold scoreChain
  have hle : ∀ j : Fin 13, (if b j then ruleDelta j else 0) ≤ (if j = 7 then (10 : Int) else 0) := by
    intro j
    by_cases hj : j = 7
    · subst hj
      simp only [if_pos rfl]
      split
      · norm_num [ruleDelta]
      · norm_num
    · rw [if_neg hj]
      split
      · fin_cases j <;> simp_all [ruleDelta]
      · exact le_refl 0
  have hsum : (∑ j : Fin 13, (if b j then ruleDelta j else 0))
      ≤ ∑ j : Fin 13, (if j = 7 then (10 : Int) else 0) :=
    Finset.sum_le_sum fun j _ => hle j
  have h10 : (∑ j : Fin 13, (if j = 7 then (10 : Int) else 0)) = 10 := by
    rw [Finset.sum_ite_eq' Finset.univ (7 : Fin 13) fun _ => (10 : Int)]
    simp
  omega

/-- A language detector that always reports "en" (the detected language the
concrete scenarios of the spec assume). -/
def detectEn : String → String := fun _ => "en"

/-- A language detector that always reports "unknown". -/
def unkDetect : String → String := fun _ => "unknown"

/-- C1: for every input comment (and any behaviour of the language detector),
the score field of the `AnalysisResult` returned by `analyze_comment` is an
integer in [0, 100] — the clamp invariant holds even when every penalty rule
fires. -/
theorem claim1_score_in_range (detect : String → String) (c : Comment) :
    0 ≤ (analyze_comment detect c).score ∧ (analyze_comment detect c).score ≤ 100 := by
  constructor
  · show (0 : Int) ≤ max 0 (min 100 (scoreChain (fires detect c)))
    exact le_max_left 0 _
  · show max 0 (min 100 (scoreChain (fires detect c))) ≤ 100
    exact max_le (by norm_num) (min_le_left _ _)

/-- C2: for every input comment, the verdict field of the result is determined
solely by the final clamped score through the threshold table `verdictOf`
(score ≥ 60 → "real", 40 ≤ score < 60 → "likely-real", 20 ≤ score < 40 →
"likely-fake", score < 20 → "fake"). -/
theorem claim2_verdict_from_score (detect : String → String) (c : Comment) :
    (analyze_comment detect c).verdict = verdictOf (analyze_comment detect c).score := rfl

/-- C10: for every input comment the returned score is at most 70: the only
positive adjustment is the +10 high-likes rule applied to the starting score
60, so the clamp's upper bound 100 is never reached. -/
theorem claim10_score_le_70 (detect : String → String) (c : Comment) :
    (analyze_comment detect c).score ≤ 70 := by
  show max 0 (min 100 (scoreChain (fires detect c))) ≤ 70
  exact max_le (by norm_num) (le_trans (min_le_right _ _) (scoreChain_le_70 _))

/-- The concrete input of claim C3. -/
def c3Input : Comment :=
  { author := "User123", text := "Great video! Loved it.", publishedAt := "2023-01-01"
    likeCount := 10, platform := "youtube" }

/-- C3 counterexample: on `{author:"User123", text:"Great video! Loved it.",
likeCount:10, platform:"youtube"}` with detected language "en",
`analyze_comment` does not return score 60 / verdict "real": the author
"User123" has three digits and matches `user\d{2,}`, so rule 8 fires (−10). -/
theorem claim3_counterexample :
    (analyze_comment detectEn c3Input).score ≠ 60 ∧
    (analyze_comment detectEn c3Input).verdict ≠ "real" := by decide

/-- C3 amended: on the same concrete input the analyzer returns score 50 and
verdict "likely-real" (60 − 10 from the author-digit rule; no other rule
fires). -/
theorem claim3_amended :
    (analyze_comment detectEn c3Input).score = 50 ∧
    (analyze_comment detectEn c3Input).verdict = "likely-real" ∧
    (analyze_comment detectEn c3Input).reasons =
      ["Author name contains many digits / generic pattern (possible bot)."] := by decide

/-- The concrete input of claim C4. -/
def c4Input : Comment :=
  { author := "", text := "", publishedAt := "", likeCount := 0, platform := "youtube" }

/-- C4 counterexample: for empty text, empty author and likeCount 0 the score
is not 56 — empty text has length ≤ 4, so the very-short-text rule (−12)
fires in addition to the likeCount==0 adjustment (−4). -/
theorem claim4_counterexample :
    (analyze_comment detectEn c4Input).score ≠ 56 := by decide

/-- C4 amended: for empty text, empty author and likeCount 0 the analyzer
applies the very-short-text rule (−12) and the likeCount==0 adjustment (−4)
and appends the unknown-language reason, returning score 44 and verdict
"likely-real". -/
theorem claim4_amended :
    (analyze_comment detectEn c4Input).score = 44 ∧
    (analyze_comment detectEn c4Input).verdict = "likely-real" ∧
    (analyze_comment detectEn c4Input).reasons =
      ["Very short or generic praise; often low-effort or bot-like.",
       "Language could not be reliably detected."] := by decide

/-- The concrete counterexample input of claim C7 (author padded with
spaces). -/
def c7Input : Comment :=
  { author := " Bob ", text := "hello world", publishedAt := "2023-05-05"
    likeCount := 3, platform := "youtube" }

/-- C7 counterexample: the author field is not copied through unchanged —
`analyze_comment` strips it (" Bob " becomes "Bob"). -/
theorem claim7_counterexample :
    (analyze_comment detectEn c7Input).author ≠ c7Input.author := by decide

/-- C7 amended: `analyze_comment` copies publishedAt and likeCount through
unchanged, but returns the whitespace-stripped text, the stripped author
(replaced by "Unknown" when the stripped author is empty), and the platform
(replaced by "unknown" when empty). -/
theorem claim7_amended (detect : String → String) (c : Comment) :
    (analyze_comment detect c).publishedAt = c.publishedAt ∧
    (analyze_comment detect c).likeCount = c.likeCount ∧
    (analyze_comment detect c).text = pyStrip c.text ∧
    (analyze_comment detect c).author
      = (if pyStrip c.author = "" then "Unknown" else pyStrip c.author) ∧
    (analyze_comment detect c).platform
      = (if c.platform = "" then "unknown" else c.platform) :=
  ⟨rfl, rfl, rfl, rfl, rfl⟩

/-- Predicate taken from the words of claim C5 (not from the code): the text
contains a run of at least 7 consecutive digit characters at any position,
regardless of the surrounding characters. -/
def hasAnyDigitRun7 (text : String) : Bool :=
  text.data.tails.any fun t => decide (7 ≤ t.length) && (t.take 7).all Char.isDigit

/-- The concrete counterexample input of claim C5: the 7-digit run is glued to
a letter, so the regex word boundary `\b` of rule 2 does not match. -/
def c5CexInput : Comment :=
  { author := "Alice", text := "a1234567", publishedAt := "2023-01-01"
    likeCount := 5, platform := "youtube" }

/-- C5 counterexample: the trimmed text "a1234567" contains a run of 7
consecutive digits, yet rule 2 does not fire — no long-numeric reason is
appended and the score stays at the starting value 60 — because
`re.search(r'\b\d{7,}\b', ...)` requires word boundaries around the run. -/
theorem claim5_counterexample :
    hasAnyDigitRun7 (pyStrip c5CexInput.text) = true ∧
    fires detectEn c5CexInput 1 = false ∧
    "Contains a long numeric sequence (could be phone/ID)."
      ∉ (analyze_comment detectEn c5CexInput).reasons ∧
    (analyze_comment detectEn c5CexInput).score = 60 := by decide

/-- C5 amended: for every comment whose trimmed text contains a digit run of
length ≥ 7 delimited by word boundaries (not adjacent to a letter, digit or
underscore), rule 2 fires: the long-numeric reason is appended and the
accumulated score is exactly 10 less than it would be with that trigger
turned off. -/
theorem claim5_amended (detect : String → String) (c : Comment)
    (h : hasBoundedDigitRun (pyStrip c.text) = true) :
    "Contains a long numeric sequence (could be phone/ID)."
      ∈ (analyze_comment detect c).reasons ∧
    scoreChain (fires detect c)
      = scoreChain (Function.update (fires detect c) 1 false) - 10 := by
  have h1 : fires detect c 1 = true := h
  constructor
  · show _ ∈ reasonsChain (fires detect c)
    refine List.mem_flatten.mpr
      ⟨ruleReasons 1, List.mem_map.mpr ⟨1, List.mem_finRange 1, by simp [h1]⟩, by simp [ruleReasons]⟩
  · have hagree : ∀ j : Fin 13, j ≠ 1 →
        fires detect c j = (Function.update (fires detect c) 1 false) j := by
      intro j hj
      rw [Function.update_noteq hj]
    have h2 : (Function.update (fires detect c) 1 false) 1 = false := by
      simp
    have htog := scoreChain_toggle _ _ 1 hagree h1 h2
    have hd : ruleDelta 1 = -10 := rfl
    omega

/-- The witness input for the amended claim C5 (sample comment of the source
demo data). -/
def c5WitnessInput : Comment :=
  { author := "SpamBot789", text := "Call now 1234567890 for deals!!!"
    publishedAt := "2023-01-04", likeCount := 0, platform := "youtube" }

/-- Witness for the amended claim C5 at a concrete input whose text contains
a space-delimited 10-digit run. -/
theorem claim5_witness :
    hasBoundedDigitRun (pyStrip c5WitnessInput.text) = true ∧
    ("Contains a long numeric sequence (could be phone/ID)."
       ∈ (analyze_comment detectEn c5WitnessInput).reasons ∧
     scoreChain (fires detectEn c5WitnessInput)
       = scoreChain (Function.update (fires detectEn c5WitnessInput) 1 false) - 10) :=
  ⟨by decide, claim5_amended detectEn c5WitnessInput (by decide)⟩

/-- First comment of the counterexample pair of claim C6: every rule except
the emoji, short-text, high-likes, short-username and language rules fires,
driving the accumulated score to −57, far below the clamp. -/
def c6CexA : Comment :=
  { author := "bot12345", text := "follow me www.a 1234567 !!!!", publishedAt := ""
    likeCount := 0, platform := "youtube" }

/-- Second comment of the counterexample pair of claim C6: identical except
that the punctuation-run trigger (rule 3) is off ("!!" instead of "!!!!"),
giving accumulated score −49, still below the clamp. -/
def c6CexB : Comment :=
  { author := "bot12345", text := "follow me www.a 1234567 !!", publishedAt := ""
    likeCount := 0, platform := "youtube" }

/-- C6 counterexample: the two comments differ in exactly one rule trigger
(rule 3, delta −8), yet their final clamped scores are equal (both 0), so
the final scores do not differ by the rule's fixed delta. -/
theorem claim6_counterexample :
    (∀ j : Fin 13, j ≠ 2 → fires unkDetect c6CexA j = fires unkDetect c6CexB j) ∧
    fires unkDetect c6CexA 2 = true ∧
    fires unkDetect c6CexB 2 = false ∧
    (analyze_comment unkDetect c6CexA).score = (analyze_comment unkDetect c6CexB).score ∧
    ruleDelta 2 ≠ 0 := by decide

/-- C6 amended: toggling exactly one rule's trigger while holding all others
fixed changes the final score by exactly that rule's fixed delta, provided
neither comment's accumulated score leaves the clamp range [0, 100]; when
the accumulation saturates at the clamp the difference can be smaller. -/
theorem claim6_amended (detect : String → String) (c1 c2 : Comment) (i : Fin 13)
    (hagree : ∀ j : Fin 13, j ≠ i → fires detect c1 j = fires detect c2 j)
    (hon : fires detect c1 i = true) (hoff : fires detect c2 i = false)
    (hlo1 : 0 ≤ scoreChain (fires detect c1)) (hhi1 : scoreChain (fires detect c1) ≤ 100)
    (hlo2 : 0 ≤ scoreChain (fires detect c2)) (hhi2 : scoreChain (fires detect c2) ≤ 100) :
    (analyze_comment detect c1).score - (analyze_comment detect c2).score = ruleDelta i := by
  have e1 : (analyze_comment detect c1).score = scoreChain (fires detect c1) := by
    show max 0 (min 100 (scoreChain (fires detect c1))) = _
    rw [min_eq_right hhi1, max_eq_right hlo1]
  have e2 : (analyze_comment detect c2).score = scoreChain (fires detect c2) := by
    show max 0 (min 100 (scoreChain (fires detect c2))) = _
    rw [min_eq_right hhi2, max_eq_right hlo2]
  rw [e1, e2]
  exact scoreChain_toggle _ _ i hagree hon hoff

/-- First comment of the witness pair for the amended claim C6. -/
def c6WitA : Comment :=
  { author := "Alice", text := "hello!!! there", publishedAt := ""
    likeCount := 5, platform := "youtube" }

/-- Second comment of the witness pair for the amended claim C6: identical
except that the punctuation-run trigger (rule 3) is off. -/
def c6WitB : Comment :=
  { author := "Alice", text := "hello!! there", publishedAt := ""
    likeCount := 5, platform := "youtube" }

/-- Witness for the amended claim C6: toggling rule 3 alone moves the final
score by exactly its delta −8 (52 versus 60, both inside the clamp). -/
theorem claim6_witness :
    (∀ j : Fin 13, j ≠ 2 → fires detectEn c6WitA j = fires detectEn c6WitB j) ∧
    (analyze_comment detectEn c6WitA).score - (analyze_comment detectEn c6WitB).score
      = ruleDelta 2 :=
  ⟨by decide,
   claim6_amended detectEn c6WitA c6WitB 2 (by decide) (by decide) (by decide)
     (by decide) (by decide) (by decide) (by decide)⟩

/-- The counterexample row of claim C8: a headered CSV row whose likeCount
holds a non-numeric value. -/
def badHeaderedRow : List (String × String) :=
  [("author", "Alice"), ("text", "hello"), ("likeCount", "abc")]

/-- C8 counterexample: for a headered row with the non-numeric likeCount
"abc", the normalizer does not produce a comment with likeCount 0 — `int`
raises, the row yields nothing and the reading loop stops. -/
theorem claim8_counterexample :
    firstTruthy [dictGet badHeaderedRow "likeCount", dictGet badHeaderedRow "likes"]
      = some "abc" ∧
    parseHeaderedRow badHeaderedRow = none ∧
    readHeaderedRows [badHeaderedRow] = [] := by decide

/-- C8 amended: a missing (or empty) likeCount yields a comment with
likeCount 0 in headered rows, and a missing or non-numeric likeCount field
yields likeCount 0 in headerless rows; but a headered row whose likeCount
holds a non-numeric string makes `int` raise, aborting the read (see the
counterexample). -/
theorem claim8_amended :
    (∀ row : List (String × String),
      firstTruthy [dictGet row "likeCount", dictGet row "likes"] = none →
      parseHeaderedRow row = some (mkHeaderedComment row 0) ∧
      (mkHeaderedComment row 0).likeCount = 0) ∧
    (∀ ln : String,
      2 ≤ (pySplitComma (pyStrip ln)).length →
      ((pySplitComma (pyStrip ln)).length ≤ 3 ∨
        pyIsdigit ((pySplitComma (pyStrip ln)).getD 3 "") = false) →
      ∃ c : Comment, parseHeaderlessLine ln = some c ∧ c.likeCount = 0) := by
  constructor
  · intro row h
    refine ⟨?_, rfl⟩
    unfold parseHeaderedRow
    rw [h]
  · intro ln h2 h3
    simp only [parseHeaderlessLine]
    rw [if_neg (by omega)]
    refine ⟨_, rfl, ?_⟩
    show (if 3 < (pySplitComma (pyStrip ln)).length ∧
            pyIsdigit ((pySplitComma (pyStrip ln)).getD 3 "")
          then ((digitsVal ((pySplitComma (pyStrip ln)).getD 3 "").data : Nat) : Int)
          else 0) = 0
    rw [if_neg]
    rintro ⟨hlen, hdig⟩
    rcases h3 with h3 | h3
    · omega
    · rw [h3] at hdig
      exact Bool.false_ne_true hdig

/-- Witness for the amended claim C8: a headered row without any likeCount
key, and a headerless line whose fourth field is non-numeric, both normalize
to likeCount 0. -/
theorem claim8_witness :
    (parseHeaderedRow [("author", "A"), ("text", "t")]
       = some (mkHeaderedComment [("author", "A"), ("text", "t")] 0) ∧
     (mkHeaderedComment [("author", "A"), ("text", "t")] 0).likeCount = 0) ∧
    (∃ c : Comment, parseHeaderlessLine "a,b,c,xyz,yt" = some c ∧ c.likeCount = 0) :=
  ⟨claim8_amended.1 [("author", "A"), ("text", "t")] (by decide),
   claim8_amended.2 "a,b,c,xyz,yt" (by decide) (Or.inr (by decide))⟩

/-- C9: for every finite sequence of `AnalysisResult`s, the presentation view
`sortResults` is a permutation of the input, sorted by score in ascending
order, and stable: for every score value, the subsequence of results with
that score is exactly the input's subsequence with that score (equal scores
keep their original relative order). -/
theorem claim9_sorted_stable (l : List AnalysisResult) :
    (sortResults l).Perm l ∧
    List.Pairwise (fun a b : AnalysisResult => a.score ≤ b.score) (sortResults l) ∧
    ∀ s : Int,
      (sortResults l).filter (fun r => r.score == s) = l.filter (fun r => r.score == s) := by
  have htrans : ∀ a b c : AnalysisResult, scoreLE a b → scoreLE b c → scoreLE a c := by
    intro a b c hab hbc
    simp only [scoreLE, decide_eq_true_eq] at *
    omega
  have htotal : ∀ a b : AnalysisResult, scoreLE a b || scoreLE b a := by
    intro a b
    simp only [scoreLE, Bool.or_eq_true, decide_eq_true_eq]
    omega
  refine ⟨List.mergeSort_perm l scoreLE, ?_, ?_⟩
  · exact (List.sorted_mergeSort htrans htotal l).imp
      (fun hab => by simpa [scoreLE, decide_eq_true_eq] using hab)
  · intro s
    have hmems : ∀ r ∈ l.filter (fun r => r.score == s), r.score = s := by
      intro r hr
      simpa using List.of_mem_filter hr
    have hpair : (l.filter (fun r => r.score == s)).Pairwise fun a b => scoreLE a b := by
      apply List.pairwise_of_forall_mem_list
      intro a ha b hb
      have := hmems a ha
      have := hmems b hb
      simp only [scoreLE, decide_eq_true_eq]
      omega
    have hkey : List.Sublist (l.filter (fun r => r.score == s)) (List.mergeSort l scoreLE) :=
      List.sublist_mergeSort htrans htotal hpair (List.filter_sublist l)
    have hfilterc : (l.filter (fun r => r.score == s)).filter (fun r => r.score == s)
        = l.filter (fun r => r.score == s) := by
      apply List.filter_eq_self.mpr
      intro a ha
      exact (List.mem_filter.mp ha).2
    have hsub2 : List.Sublist (l.filter (fun r => r.score == s))
        ((List.mergeSort l scoreLE).filter (fun r => r.score == s)) := by
      have := hkey.filter (fun r => r.score == s)
      rwa [hfilterc] at this
    have hperm : List.Perm ((List.mergeSort l scoreLE).filter (fun r => r.score == s))
        (l.filter (fun r => r.score == s)) :=
      (List.mergeSort_perm l scoreLE).filter (fun r => r.score == s)
    have hlen : (l.filter (fun r => r.score == s)).length
        = ((List.mergeSort l scoreLE).filter (fun r => r.score == s)).length :=
      hperm.length_eq.symm
    exact (hsub2.eq_of_length hlen).symm
